import Mathlib

/-!
Verification of the Zapier-only analytics proxy (Express app).

The development shallowly embeds the JavaScript source:
* JSON/JS values are modelled by `Json` (numbers as `Int`; the app never
  constructs non-integer numbers in the properties verified here).
* JS truthiness, `typeof`, the `in` operator, property access,
  `Object.keys` and `JSON.stringify` are modelled by total Lean
  functions with the semantics the source relies on.
* `hostFromOrigin`, the CORS admission, `validatePayload` (whose
  in-place key pruning is modelled by returning the resulting mapping),
  `forwardToZapier` (exceptions as `Option`) and the collect endpoint's
  pre-forward logic are translated statement by statement.
-/

/-- JS/JSON values. Numbers are modelled as integers. -/
inductive Json where
  | null : Json
  | bool : Bool → Json
  | num : Int → Json
  | str : String → Json
  | arr : List Json → Json
  | obj : List (String × Json) → Json

/-- JS truthiness of a value (`NaN` is not representable here). -/
def jsTruthy : Json → Bool
  | Json.null => false
  | Json.bool b => b
  | Json.num n => n != 0
  | Json.str s => s != ""
  | Json.arr _ => true
  | Json.obj _ => true

/-- `typeof v === 'object'` (true for `null`, arrays and objects). -/
def typeofIsObject : Json → Bool
  | Json.null => true
  | Json.arr _ => true
  | Json.obj _ => true
  | _ => false

/-- The JS `in` operator for the key names the app queries.  For arrays the
own properties are the index strings and `length`; the app only ever asks
for `session_id` / `event_params`, which arrays never have.  Primitives are
never queried (`typeof` is checked first). -/
def hasKey : Json → String → Bool
  | Json.obj l, k => (l.map Prod.fst).contains k
  | Json.arr l, k => (k == "length") || ((List.range l.length).map (fun i => toString i)).contains k
  | _, _ => false

/-- JS property access `p[k]`; `none` models `undefined`. -/
def jsGet : Json → String → Option Json
  | Json.obj l, k => l.lookup k
  | Json.arr l, k =>
      if k == "length" then some (Json.num (Int.ofNat l.length))
      else (List.zip ((List.range l.length).map (fun i => toString i)) l).lookup k
  | Json.str s, k => if k == "length" then some (Json.num (Int.ofNat s.length)) else none
  | _, _ => none

/-- `Object.keys`: own enumerable keys (index strings for arrays and
primitive strings, property names for objects, empty otherwise). -/
def jsKeys : Json → List String
  | Json.obj l => l.map Prod.fst
  | Json.arr l => (List.range l.length).map (fun i => toString i)
  | Json.str s => (List.range s.length).map (fun i => toString i)
  | _ => []

/-- Hex digit for `JSON.stringify` control-character escapes. -/
def hexDigit (n : Nat) : Char :=
  if n < 10 then Char.ofNat (48 + n) else Char.ofNat (87 + n)

/-- Four-digit lowercase hex, as in `\u00XX` escapes. -/
def hex4 (n : Nat) : String :=
  String.mk [hexDigit (n / 4096 % 16), hexDigit (n / 256 % 16),
             hexDigit (n / 16 % 16), hexDigit (n % 16)]

/-- `JSON.stringify` escaping of one character inside a string literal. -/
def escapeChar (c : Char) : String :=
  if c = '"' then "\\\""
  else if c = '\\' then "\\\\"
  else if c = '\x08' then "\\b"
  else if c = '\x09' then "\\t"
  else if c = '\x0a' then "\\n"
  else if c = '\x0c' then "\\f"
  else if c = '\x0d' then "\\r"
  else if c.toNat < 32 then "\\u" ++ hex4 c.toNat
  else String.singleton c

/-- `JSON.stringify` escaping of a whole string body. -/
def escapeStr (s : String) : String :=
  String.join (s.data.map escapeChar)

mutual

/-- `JSON.stringify` (no `undefined`/function values exist in `Json`,
so no entry skipping arises). -/
def stringify : Json → String
  | Json.null => "null"
  | Json.bool true => "true"
  | Json.bool false => "false"
  | Json.num n => toString n
  | Json.str s => "\"" ++ escapeStr s ++ "\""
  | Json.arr l => "[" ++ stringifyElems l ++ "]"
  | Json.obj l => "\x7b" ++ stringifyEntries l ++ "\x7d"

/-- Comma-joined serialization of array elements. -/
def stringifyElems : List Json → String
  | [] => ""
  | [j] => stringify j
  | j :: rest => stringify j ++ "," ++ stringifyElems rest

/-- Comma-joined serialization of object entries. -/
def stringifyEntries : List (String × Json) → String
  | [] => ""
  | [(k, v)] => "\"" ++ escapeStr k ++ "\":" ++ stringify v
  | (k, v) :: rest => "\"" ++ escapeStr k ++ "\":" ++ stringify v ++ "," ++ stringifyEntries rest

end

/-! ## Origin normalization (`hostFromOrigin`, src/unnamed/part_000)

The JS string primitives the function uses are modelled on the character
list of the string (structurally recursive, hence evaluable). -/

/-- The whitespace characters `String.prototype.trim` removes (the ones
that can occur in an HTTP header value). -/
def jsIsSpace (c : Char) : Bool :=
  c = ' ' || c = '\x09' || c = '\x0a' || c = '\x0d' || c = '\x0b' || c = '\x0c'

/-- JS `String.prototype.trim`. -/
def jsTrim (s : String) : String :=
  String.mk (((s.data.dropWhile jsIsSpace).reverse.dropWhile jsIsSpace).reverse)

/-- ASCII lowercasing of one character, as `toLowerCase` acts on the
characters appearing in scheme/host/port strings. -/
def lowerChar (c : Char) : Char :=
  if 'A' ≤ c ∧ c ≤ 'Z' then Char.ofNat (c.toNat + 32) else c

/-- JS `String.prototype.toLowerCase` (ASCII range). -/
def jsToLower (s : String) : String :=
  String.mk (s.data.map lowerChar)

/-- JS `String.prototype.startsWith`. -/
def jsStartsWith (s pre : String) : Bool :=
  List.isPrefixOf pre.data s.data

/-- `s.replace(/^https?:\/\//, '')`: the anchored regex removes a leading
`https://` (greedy optional `s`) or `http://`, otherwise leaves `s` alone. -/
def stripScheme (s : String) : String :=
  if jsStartsWith s "https://" then String.mk (s.data.drop 8)
  else if jsStartsWith s "http://" then String.mk (s.data.drop 7)
  else s

/-- `s.split(sep)[0]` for a one-character separator: the part of `s`
before the first occurrence of `sep` (JS `split` on a string always
yields a non-empty array, so index 0 exists). -/
def firstSegment (sep : Char) (s : String) : String :=
  String.mk (s.data.takeWhile (fun c => c ≠ sep))

/-- `hostFromOrigin` from the source: empty-guard, then trim + lowercase,
then strip scheme, path, query, hash and port in that order.  The final
`return s || ''` is the identity on strings (`'' || ''` is `''`). -/
def hostFromOrigin (orig : String) : String :=
  if orig == "" then ""
  else
    let s0 := jsToLower (jsTrim orig)
    let s1 := stripScheme s0
    let s2 := firstSegment '/' s1
    let s3 := firstSegment '?' s2
    let s4 := firstSegment '#' s3
    let s5 := firstSegment ':' s4
    s5

/-- `hostFromOrigin` run in an exception monad: every primitive the JS body
uses (`String(·)` on a string, `trim`, `toLowerCase`, anchored regex
`replace`, `split` + index 0) is total on strings, so each step is `pure`
and no `throw` site exists. -/
def hostFromOriginE (orig : String) : Except String String :=
  if orig == "" then Except.ok ""
  else do
    let s0 ← Except.ok (jsToLower (jsTrim orig))
    let s1 ← Except.ok (stripScheme s0)
    let s2 ← Except.ok (firstSegment '/' s1)
    let s3 ← Except.ok (firstSegment '?' s2)
    let s4 ← Except.ok (firstSegment '#' s3)
    let s5 ← Except.ok (firstSegment ':' s4)
    Except.ok s5

/-! ## CORS admission (cors origin callback, src/unnamed/part_000) -/

/-- JS `String.prototype.endsWith(suf)`: `suf` is a suffix of `s`. -/
def jsEndsWith (s suf : String) : Bool :=
  List.isSuffixOf suf.data s.data

/-- The admission decision of the cors origin callback for a normalized
hostname `host`: `baseOK || extraOK` with the root domain and the extra
allow-list from the environment. -/
def originAllowed (host rootDomain : String) (extras : List String) : Bool :=
  let baseOK := (host == rootDomain) || jsEndsWith host ("." ++ rootDomain)
  let extraOK := extras.any (fun o =>
    let h := hostFromOrigin o
    (host == h) || jsEndsWith host ("." ++ h))
  baseOK || extraOK

/-! ## Payload validation (`validatePayload`, src/unnamed/part_000) -/

/-- The allow-list of recognized top-level keys (`allowedTop`). -/
def allowedTop : List String :=
  ["client_id","session_id","atraid","atrauid",
   "timestamp","page_url","page_path","page_title",
   "referrer_url","referrer_host","language","screen_resolution",
   "utm_source_first","utm_source_last","utm_medium_first","utm_medium_last",
   "utm_campaign_first","utm_campaign_last","utm_term_first","utm_term_last",
   "utm_content_first","utm_content_last",
   "gclid","gbraid","wbraid","fbclid","msclkid","ttclid","li_fat_id","twclid",
   "ciid","clickid","adset_name",
   "channel_first_touch","channel_last_touch",
   "event_type","event_params"]

/-- `v !== ''` for a possibly-undefined value (`undefined !== ''` holds):
only the empty string is strictly equal to `''`. -/
def strictNeEmptyStr : Option Json → Bool
  | some (Json.str s) => s != ""
  | _ => true

/-- `typeof v === 'number'` for a possibly-undefined value. -/
def typeofNumber : Option Json → Bool
  | some (Json.num _) => true
  | _ => false

/-- Truthiness of a possibly-undefined value (`undefined` is falsy). -/
def optTruthy : Option Json → Bool
  | some v => jsTruthy v
  | none => false

/-- `typeof v === 'object'` for a possibly-undefined value
(`typeof undefined` is `'undefined'`). -/
def typeofObjectOpt : Option Json → Bool
  | some v => typeofIsObject v
  | none => false

/-- `JSON.stringify` of a possibly-undefined value.  The `none` case is
unreachable in `validatePayload` (it sits behind a truthiness guard). -/
def stringifyOpt : Option Json → String
  | some v => stringify v
  | none => "undefined"

/-- `'session_id' in p && p.session_id !== '' && typeof p.session_id !== 'number'`. -/
def sessionIdBad (p : Json) : Bool :=
  hasKey p "session_id" && strictNeEmptyStr (jsGet p "session_id")
    && !typeofNumber (jsGet p "session_id")

/-- `'event_params' in p && p.event_params && typeof p.event_params !== 'object'`. -/
def eventParamsNotObj (p : Json) : Bool :=
  hasKey p "event_params" && optTruthy (jsGet p "event_params")
    && !typeofObjectOpt (jsGet p "event_params")

/-- `p.event_params && JSON.stringify(p.event_params).length > 8192`. -/
def eventParamsTooLarge (p : Json) : Bool :=
  optTruthy (jsGet p "event_params")
    && decide (8192 < (stringifyOpt (jsGet p "event_params")).length)

/-- `Object.keys(p).forEach(k => { if (!allowedTop.has(k)) delete p[k] })`:
on an object every non-allow-listed entry is deleted; on an array every
index key is deleted (no own enumerable key survives, since no index
string is in the allow-list); other cases are unreachable behind the
`typeof` guard. -/
def prune : Json → Json
  | Json.obj l => Json.obj (l.filter (fun kv => allowedTop.contains kv.1))
  | Json.arr _ => Json.arr []
  | j => j

/-- `validatePayload`, with the mutation of `p` made explicit: the result
is the error (`none` for success) paired with the mapping as the function
leaves it.  Every error `return` happens before the pruning loop, so on
error the mapping is returned untouched. -/
def validatePayload (p : Json) : Option String × Json :=
  if !jsTruthy p || !typeofIsObject p then (some "invalid body", p)
  else if sessionIdBad p then (some "session_id must be number or empty", p)
  else if eventParamsNotObj p then (some "event_params must be object", p)
  else if eventParamsTooLarge p then (some "event_params too large", p)
  else (none, prune p)

/-! ## Zapier forwarder (`forwardToZapier`, src/unnamed/part_000) -/

/-- Outcome of one HTTP POST attempt: a response with a status code, or a
transport-level failure (timeout, connection error). -/
inductive Attempt where
  | ok : Nat → Attempt
  | fail : Attempt

/-- The axios instance `zapier` has `validateStatus: s => s >= 200 && s < 500`,
so a completed response resolves the promise iff its status is in
`[200, 500)`; any other status and any transport failure rejects. -/
def axiosResolves : Attempt → Option Nat
  | Attempt.ok s => if 200 ≤ s ∧ s < 500 then some s else none
  | Attempt.fail => none

/-- `forwardToZapier` over the outcomes of the (at most) two attempts:
`none` models an exception raised to the caller.  The `res.status >= 500`
rethrows after a resolved await are kept from the source even though
`validateStatus` already makes them dead. -/
def forwardToZapier (configured : Bool) (a1 a2 : Attempt) : Option Nat :=
  if !configured then none
  else
    match axiosResolves a1 with
    | some s => if 500 ≤ s then none else some s
    | none =>
      match axiosResolves a2 with
      | some s2 => if 500 ≤ s2 then none else some s2
      | none => none

/-- How many POSTs `forwardToZapier` issues: none when unconfigured, one when
the first attempt resolves, two otherwise (the single retry in the catch). -/
def forwardAttempts (configured : Bool) (a1 : Attempt) : Nat :=
  if !configured then 0
  else
    match axiosResolves a1 with
    | some _ => 1
    | none => 2

/-! ## Collect endpoint (src/unnamed/part_000) -/

/-- What the collect handler decides before any network call: an early
response, or a call into the forwarder with the validated payload. -/
inductive HandlerStep where
  | reject : Nat → String → HandlerStep
  | forward : Json → HandlerStep

/-- The collect handler from body coercion up to the forwarder call:
`const payload = req.body || {}`, the empty-body rejection, then
`validatePayload`.  `HandlerStep.reject st e` models
`res.status(st).json({ error: e })`; the forwarder is called only in the
`HandlerStep.forward` case. -/
def collectPre (body : Json) : HandlerStep :=
  let payload := if jsTruthy body then body else Json.obj []
  if !jsTruthy payload || (jsKeys payload).length == 0 then
    HandlerStep.reject 400 "empty body"
  else
    match validatePayload payload with
    | (some e, _) => HandlerStep.reject 400 e
    | (none, p2) => HandlerStep.forward p2

/-! ## Helper lemmas -/

/-- JS `endsWith` characterized: `suf` is a literal suffix decomposition. -/
theorem jsEndsWith_iff (s suf : String) :
    jsEndsWith s suf = true ↔ ∃ pre : String, s = pre ++ suf := by
  unfold jsEndsWith
  rw [List.isSuffixOf_iff_suffix]
  constructor
  · rintro ⟨t, ht⟩
    exact ⟨String.mk t, String.ext (by simp [← ht])⟩
  · rintro ⟨pre, rfl⟩
    exact ⟨pre.data, by simp⟩

/-! ## C2 -/

/-- C2: the origin normalizer lowercases and strips scheme, path, query,
fragment and port in that order: `HTTPS://A.EXAMPLE.COM:443/p?q=1#f`
normalizes to `a.example.com` and `HTTPS://Sub.Example.com:8443/path?x=1#y`
to `sub.example.com`. -/
theorem hostFromOrigin_normalizes_examples :
    hostFromOrigin "HTTPS://A.EXAMPLE.COM:443/p?q=1#f" = "a.example.com"
    ∧ hostFromOrigin "HTTPS://Sub.Example.com:8443/path?x=1#y" = "sub.example.com" :=
  ⟨by decide, by decide⟩

/-! ## C9 -/

/-- C9: the origin normalizer is total: on every input string it returns a
string through the exception-free evaluation `hostFromOriginE`, and a
malformed origin at worst yields a hostname the admission check rejects. -/
theorem hostFromOrigin_total_no_throw :
    (∀ orig : String, hostFromOriginE orig = Except.ok (hostFromOrigin orig))
    ∧ originAllowed (hostFromOrigin "!!%%not a url::##") "robinsonandhenry.com" [] = false := by
  constructor
  · intro orig
    by_cases h : orig == ""
    · simp [hostFromOriginE, hostFromOrigin, h]
    · simp only [hostFromOriginE, hostFromOrigin, h, Bool.false_eq_true, if_false]
      rfl
  · decide

/-! ## C1 -/

/-- C1: with an empty extra allow-list the cors origin callback admits a
normalized hostname `host` iff `host` equals the root domain `D` or `host`
ends with `"." ++ D` (a literal suffix decomposition, not a substring
match); in particular `evilexample.com` is denied for root domain
`example.com`. -/
theorem originAllowed_iff_root_or_subdomain :
    (∀ host D : String,
        originAllowed host D [] = true ↔ (host = D ∨ ∃ pre : String, host = pre ++ ("." ++ D)))
    ∧ originAllowed "evilexample.com" "example.com" [] = false := by
  constructor
  · intro host D
    simp only [originAllowed, List.any_nil, Bool.or_false, Bool.or_eq_true, beq_iff_eq,
      jsEndsWith_iff]
  · decide

/-! ## C3 -/

/-- C3: when the coerced request body is a mapping with zero keys, the
collect handler responds `400` with error `empty body` and the forwarder
is never called. -/
theorem collect_empty_body_rejected (l : List (String × Json))
    (h : jsKeys (Json.obj l) = []) :
    collectPre (Json.obj l) = HandlerStep.reject 400 "empty body"
    ∧ ∀ q : Json, collectPre (Json.obj l) ≠ HandlerStep.forward q := by
  have hmain : collectPre (Json.obj l) = HandlerStep.reject 400 "empty body" := by
    simp [collectPre, jsTruthy, h]
  exact ⟨hmain, fun q => by simp [hmain]⟩

/-- Witness for C3 at the explicit empty JSON object. -/
theorem collect_empty_body_rejected_witness :
    jsKeys (Json.obj []) = []
    ∧ collectPre (Json.obj []) = HandlerStep.reject 400 "empty body" :=
  ⟨rfl, (collect_empty_body_rejected [] rfl).1⟩

/-! ## C10 -/

/-- C10: `validatePayload` is atomic on failure: whenever it returns an
error string, the payload mapping is returned untouched (all checks run
before the pruning loop). -/
theorem validatePayload_error_leaves_payload (p : Json) (e : String)
    (h : (validatePayload p).fst = some e) :
    (validatePayload p).snd = p := by
  unfold validatePayload at h ⊢
  split_ifs at h ⊢ <;> simp_all

/-- Witness for C10: a non-object body fails validation and is returned
unchanged. -/
theorem validatePayload_error_leaves_payload_witness :
    (validatePayload (Json.num 3)).fst = some "invalid body"
    ∧ (validatePayload (Json.num 3)).snd = Json.num 3 :=
  ⟨rfl, validatePayload_error_leaves_payload (Json.num 3) "invalid body" rfl⟩

/-! ## C4 -/

/-- C4 (amended): the forwarder issues at most two POST attempts; a first
attempt resolving with status in `[200, 500)` is returned as-is with no
retry; a first attempt with status `>= 500` or a transport failure
triggers exactly one retry, whose status is returned when it lies in
`[200, 500)`; if the retry also yields `>= 500` or fails at transport
level, the failure is raised to the caller. -/
theorem forwardToZapier_retry_policy (a1 a2 : Attempt) :
    forwardAttempts true a1 ≤ 2
    ∧ (∀ s : Nat, a1 = Attempt.ok s → 200 ≤ s → s < 500 →
        forwardToZapier true a1 a2 = some s ∧ forwardAttempts true a1 = 1)
    ∧ ((a1 = Attempt.fail ∨ ∃ s : Nat, a1 = Attempt.ok s ∧ 500 ≤ s) →
        forwardAttempts true a1 = 2
        ∧ (∀ s2 : Nat, a2 = Attempt.ok s2 → 200 ≤ s2 → s2 < 500 →
            forwardToZapier true a1 a2 = some s2)
        ∧ ((a2 = Attempt.fail ∨ ∃ s2 : Nat, a2 = Attempt.ok s2 ∧ 500 ≤ s2) →
            forwardToZapier true a1 a2 = none)) := by
  refine ⟨?_, ?_, ?_⟩
  · cases a1
    · simp only [forwardAttempts, axiosResolves]
      split
      · simp
      · split <;> simp
    · simp [forwardAttempts, axiosResolves]
  · rintro s rfl h200 h500
    have hres : axiosResolves (Attempt.ok s) = some s := by
      simp [axiosResolves, h200, h500]
    constructor
    · simp [forwardToZapier, hres]
      omega
    · simp [forwardAttempts, hres]
  · intro h1
    have hres1 : axiosResolves a1 = none := by
      rcases h1 with rfl | ⟨s, rfl, hs⟩
      · rfl
      · simp [axiosResolves]
        omega
    refine ⟨by simp [forwardAttempts, hres1], ?_, ?_⟩
    · rintro s2 rfl h200 h500
      have hres2 : axiosResolves (Attempt.ok s2) = some s2 := by
        simp [axiosResolves, h200, h500]
      simp [forwardToZapier, hres1, hres2]
      omega
    · intro h2
      have hres2 : axiosResolves a2 = none := by
        rcases h2 with rfl | ⟨s2, rfl, hs2⟩
        · rfl
        · simp [axiosResolves]
          omega
      simp [forwardToZapier, hres1, hres2]

/-- Witness for C4: a 503 first attempt followed by a 200 retry returns
200 after exactly two attempts. -/
theorem forwardToZapier_retry_policy_witness :
    forwardToZapier true (Attempt.ok 503) (Attempt.ok 200) = some 200
    ∧ forwardAttempts true (Attempt.ok 503) = 2 := by
  have h := forwardToZapier_retry_policy (Attempt.ok 503) (Attempt.ok 200)
  have h2 := h.2.2 (Or.inr ⟨503, rfl, by omega⟩)
  exact ⟨h2.2.1 200 rfl (by omega) (by omega), h2.1⟩

/-- Counterexample for C4 as stated: after a transport failure, a retry
that completes with status `100 < 500` is not returned — `validateStatus`
rejects any status below 200, so the forwarder raises a failure instead of
returning `some 100`. -/
theorem forwardToZapier_retry_low_status_counterexample :
    forwardToZapier true Attempt.fail (Attempt.ok 100) = none
    ∧ forwardToZapier true Attempt.fail (Attempt.ok 100) ≠ some 100
    ∧ 100 < 500 :=
  ⟨rfl, by simp [forwardToZapier, axiosResolves], by omega⟩

/-! ## Validator structure lemmas -/

/-- A key reported by the `in` operator on an object has a value. -/
theorem hasKey_obj_exists_get (l : List (String × Json)) (k : String)
    (h : hasKey (Json.obj l) k = true) : ∃ v, jsGet (Json.obj l) k = some v := by
  induction l with
  | nil => simp [hasKey] at h
  | cons a t ih =>
    obtain ⟨k1, v1⟩ := a
    by_cases hk : (k == k1) = true
    · exact ⟨v1, by simp [jsGet, List.lookup, hk]⟩
    · have hkf : (k == k1) = false := by simpa using hk
      have h' : hasKey (Json.obj t) k = true := by
        simp [hasKey] at h ⊢
        rcases h with h | h
        · exact absurd (by simp [h]) hk
        · exact h
      obtain ⟨v, hv⟩ := ih h'
      refine ⟨v, ?_⟩
      simp only [jsGet, List.lookup] at hv ⊢
      rw [hkf]
      exact hv

/-- The `session_id` check condition fires exactly on present values that
are neither the empty string nor a number. -/
theorem sessionIdBad_iff_obj (l : List (String × Json))
    (h : hasKey (Json.obj l) "session_id" = true) :
    sessionIdBad (Json.obj l) = true
    ↔ ¬(jsGet (Json.obj l) "session_id" = some (Json.str "")
        ∨ ∃ n : Int, jsGet (Json.obj l) "session_id" = some (Json.num n)) := by
  obtain ⟨v, hv⟩ := hasKey_obj_exists_get l "session_id" h
  unfold sessionIdBad
  rw [h, hv]
  cases v with
  | null => simp [strictNeEmptyStr, typeofNumber]
  | bool b => simp [strictNeEmptyStr, typeofNumber]
  | num n => simp [strictNeEmptyStr, typeofNumber]
  | str s => by_cases hs : s = "" <;> simp [strictNeEmptyStr, typeofNumber, hs]
  | arr l2 => simp [strictNeEmptyStr, typeofNumber]
  | obj l2 => simp [strictNeEmptyStr, typeofNumber]

/-- `validatePayload` on an object returns the `session_id` error exactly
when the `session_id` check condition fires (no other branch produces that
string). -/
theorem validate_fst_session_iff (l : List (String × Json)) :
    (validatePayload (Json.obj l)).fst = some "session_id must be number or empty"
    ↔ sessionIdBad (Json.obj l) = true := by
  unfold validatePayload
  by_cases hb : sessionIdBad (Json.obj l) = true
  · simp [jsTruthy, typeofIsObject, hb]
  · simp only [jsTruthy, typeofIsObject, hb, Bool.not_true, Bool.or_self, Bool.false_eq_true,
      if_false, if_true]
    constructor
    · intro hfst
      exfalso
      revert hfst
      split
      · simp
      · split <;> simp
    · intro hcontra
      exact hcontra.elim

/-- On success all checks were false and the result is the pruned mapping. -/
theorem validatePayload_success_conds (p : Json) (h : (validatePayload p).fst = none) :
    jsTruthy p = true ∧ typeofIsObject p = true
    ∧ sessionIdBad p = false ∧ eventParamsNotObj p = false
    ∧ eventParamsTooLarge p = false ∧ (validatePayload p).snd = prune p := by
  unfold validatePayload at h ⊢
  split_ifs at h ⊢ with h1 h2 h3 h4
  all_goals simp_all

/-- Pruning does not change the value found for an allow-listed key. -/
theorem lookup_filter_allowed (l : List (String × Json)) (k : String)
    (hk : allowedTop.contains k = true) :
    List.lookup k (l.filter (fun kv => allowedTop.contains kv.1)) = List.lookup k l := by
  induction l with
  | nil => rfl
  | cons a t ih =>
    obtain ⟨k1, v1⟩ := a
    by_cases hkk : k = k1
    · subst hkk
      have hmem : k ∈ allowedTop := by simpa using hk
      simp [List.filter_cons, hmem, List.lookup_cons]
    · have hne : (k == k1) = false := by simpa using hkk
      by_cases ha : k1 ∈ allowedTop
      · simpa [List.filter_cons, ha, List.lookup_cons, hne] using ih
      · simpa [List.filter_cons, ha, List.lookup_cons, hne] using ih

/-- Pruning does not change presence of an allow-listed key. -/
theorem hasKey_filter_allowed (l : List (String × Json)) (k : String)
    (hk : allowedTop.contains k = true) :
    hasKey (Json.obj (l.filter (fun kv => allowedTop.contains kv.1))) k
      = hasKey (Json.obj l) k := by
  induction l with
  | nil => rfl
  | cons a t ih =>
    obtain ⟨k1, v1⟩ := a
    by_cases hkk : k = k1
    · subst hkk
      have hmem : k ∈ allowedTop := by simpa using hk
      simp [List.filter_cons, hmem, hasKey, List.contains_cons]
    · have hne : (k == k1) = false := by simpa using hkk
      by_cases ha : k1 ∈ allowedTop
      · simp only [hasKey] at ih ⊢
        simpa [List.filter_cons, ha, List.contains_cons, hne] using ih
      · simp only [hasKey] at ih ⊢
        simpa [List.filter_cons, ha, List.contains_cons, hne] using ih

/-- The `session_id` check is insensitive to pruning. -/
theorem sessionIdBad_filter (l : List (String × Json)) :
    sessionIdBad (Json.obj (l.filter (fun kv => allowedTop.contains kv.1)))
      = sessionIdBad (Json.obj l) := by
  have hget : jsGet (Json.obj (l.filter (fun kv => allowedTop.contains kv.1))) "session_id"
      = jsGet (Json.obj l) "session_id" := lookup_filter_allowed l "session_id" (by decide)
  unfold sessionIdBad
  rw [hasKey_filter_allowed l "session_id" (by decide), hget]

/-- The `event_params` type check is insensitive to pruning. -/
theorem eventParamsNotObj_filter (l : List (String × Json)) :
    eventParamsNotObj (Json.obj (l.filter (fun kv => allowedTop.contains kv.1)))
      = eventParamsNotObj (Json.obj l) := by
  have hget : jsGet (Json.obj (l.filter (fun kv => allowedTop.contains kv.1))) "event_params"
      = jsGet (Json.obj l) "event_params" := lookup_filter_allowed l "event_params" (by decide)
  unfold eventParamsNotObj
  rw [hasKey_filter_allowed l "event_params" (by decide), hget]

/-- The `event_params` size check is insensitive to pruning. -/
theorem eventParamsTooLarge_filter (l : List (String × Json)) :
    eventParamsTooLarge (Json.obj (l.filter (fun kv => allowedTop.contains kv.1)))
      = eventParamsTooLarge (Json.obj l) := by
  have hget : jsGet (Json.obj (l.filter (fun kv => allowedTop.contains kv.1))) "event_params"
      = jsGet (Json.obj l) "event_params" := lookup_filter_allowed l "event_params" (by decide)
  unfold eventParamsTooLarge
  rw [hget]

/-! ## C6 -/

/-- C6: for every payload object containing the key `session_id`, the
validator reports `session_id must be number or empty` exactly when the
value is neither the empty string nor a number (so booleans and non-empty
non-numeric strings are rejected, `""` and numbers pass this check). -/
theorem session_id_validation (l : List (String × Json))
    (h : hasKey (Json.obj l) "session_id" = true) :
    (validatePayload (Json.obj l)).fst = some "session_id must be number or empty"
    ↔ ¬(jsGet (Json.obj l) "session_id" = some (Json.str "")
        ∨ ∃ n : Int, jsGet (Json.obj l) "session_id" = some (Json.num n)) := by
  rw [validate_fst_session_iff l]
  exact sessionIdBad_iff_obj l h

/-- Witness for C6 at `session_id = "abc"`. -/
theorem session_id_validation_witness :
    hasKey (Json.obj [("session_id", Json.str "abc")]) "session_id" = true
    ∧ ((validatePayload (Json.obj [("session_id", Json.str "abc")])).fst
        = some "session_id must be number or empty"
      ↔ ¬(jsGet (Json.obj [("session_id", Json.str "abc")]) "session_id" = some (Json.str "")
          ∨ ∃ n : Int, jsGet (Json.obj [("session_id", Json.str "abc")]) "session_id"
              = some (Json.num n))) :=
  ⟨rfl, session_id_validation [("session_id", Json.str "abc")] rfl⟩

/-! ## Serialized size of the explicit payloads used for C5 -/

/-- Unfolding of `stringify` on arrays. -/
theorem stringify_arr (l : List Json) :
    stringify (Json.arr l) = "[" ++ stringifyElems l ++ "]" := by
  simp [stringify]

/-- Unfolding of `stringifyElems` on a two-or-more element list. -/
theorem stringifyElems_cons2 (j j2 : Json) (t : List Json) :
    stringifyElems (j :: j2 :: t) = stringify j ++ "," ++ stringifyElems (j2 :: t) := by
  simp [stringifyElems]

/-- Serialized size of `n+1` zeros joined by commas. -/
theorem stringifyElems_replicate_len (n : Nat) :
    (stringifyElems (List.replicate (n+1) (Json.num 0))).length = 2*n+1 := by
  induction n with
  | zero => rfl
  | succ m ih =>
    rw [List.replicate_succ, List.replicate_succ, stringifyElems_cons2, ← List.replicate_succ]
    have h0 : (stringify (Json.num 0)).length = 1 := rfl
    have hc : ("," : String).length = 1 := rfl
    rw [String.length_append, String.length_append, h0, hc, ih]
    omega

/-- An array of 4096 zeros serializes to 8193 characters. -/
theorem stringify_big_len :
    (stringify (Json.arr (List.replicate 4096 (Json.num 0)))).length = 8193 := by
  rw [stringify_arr]
  have h : (stringifyElems (List.replicate (4095+1) (Json.num 0))).length = 2*4095+1 :=
    stringifyElems_replicate_len 4095
  rw [String.length_append, String.length_append]
  rw [show (4096 : Nat) = 4095 + 1 from rfl, h,
    show ("[" : String).length = 1 from rfl, show ("]" : String).length = 1 from rfl]

/-- A `10` followed by 4094 zeros serializes to exactly 8192 characters. -/
theorem stringify_boundary_len :
    (stringify (Json.arr (Json.num 10 :: List.replicate 4094 (Json.num 0)))).length = 8192 := by
  rw [stringify_arr]
  rw [show (4094 : Nat) = 4093 + 1 from rfl, List.replicate_succ, stringifyElems_cons2,
    ← List.replicate_succ]
  have h : (stringifyElems (List.replicate (4093+1) (Json.num 0))).length = 2*4093+1 :=
    stringifyElems_replicate_len 4093
  have h10 : (stringify (Json.num 10)).length = 2 := rfl
  have hc : ("," : String).length = 1 := rfl
  rw [String.length_append, String.length_append, String.length_append, String.length_append,
    h10, hc, h, show ("[" : String).length = 1 from rfl, show ("]" : String).length = 1 from rfl]

/-! ## C5 -/

/-- C5 (amended): for a payload object whose `event_params` is present,
truthy and of object type, and whose `session_id` check passes, validation
fails with `event_params too large` exactly when the serialized length of
`event_params` exceeds 8192; at exactly 8192 it passes this check.  (As
stated the claim is false: the `session_id` check runs first and takes
precedence, see the counterexample.) -/
theorem event_params_size_gate (l : List (String × Json)) (v : Json)
    (hget : jsGet (Json.obj l) "event_params" = some v)
    (htruthy : jsTruthy v = true)
    (hobj : typeofIsObject v = true)
    (hsession : sessionIdBad (Json.obj l) = false) :
    (validatePayload (Json.obj l)).fst = some "event_params too large"
    ↔ 8192 < (stringify v).length := by
  have hno : eventParamsNotObj (Json.obj l) = false := by
    unfold eventParamsNotObj
    rw [hget]
    simp [typeofObjectOpt, hobj]
  have htl : eventParamsTooLarge (Json.obj l)
      = decide (8192 < (stringify v).length) := by
    unfold eventParamsTooLarge
    rw [hget]
    simp [optTruthy, htruthy, stringifyOpt]
  unfold validatePayload
  rw [hsession, hno, htl]
  simp only [jsTruthy, typeofIsObject, Bool.not_true, Bool.or_self, Bool.false_eq_true, if_false]
  by_cases hbig : 8192 < (stringify v).length
  · simp [hbig]
  · simp [hbig]

/-- Witness for C5 at the 8192-character boundary payload: the size check
passes there. -/
theorem event_params_size_gate_witness :
    jsGet (Json.obj [("event_params", Json.arr (Json.num 10 :: List.replicate 4094 (Json.num 0)))])
        "event_params"
      = some (Json.arr (Json.num 10 :: List.replicate 4094 (Json.num 0)))
    ∧ (stringify (Json.arr (Json.num 10 :: List.replicate 4094 (Json.num 0)))).length = 8192
    ∧ ((validatePayload (Json.obj [("event_params",
          Json.arr (Json.num 10 :: List.replicate 4094 (Json.num 0)))])).fst
        = some "event_params too large"
      ↔ 8192 < (stringify (Json.arr (Json.num 10 :: List.replicate 4094 (Json.num 0)))).length) :=
  ⟨rfl, stringify_boundary_len,
    event_params_size_gate
      [("event_params", Json.arr (Json.num 10 :: List.replicate 4094 (Json.num 0)))]
      (Json.arr (Json.num 10 :: List.replicate 4094 (Json.num 0))) rfl rfl rfl rfl⟩

/-- Counterexample to C5 as stated: a payload whose `event_params`
serializes to 8193 > 8192 characters but whose `session_id` is `"abc"`
fails with the `session_id` error, not with `event_params too large`. -/
theorem event_params_size_precedence_counterexample :
    8192 < (stringify (Json.arr (List.replicate 4096 (Json.num 0)))).length
    ∧ optTruthy (jsGet (Json.obj [("session_id", Json.str "abc"),
        ("event_params", Json.arr (List.replicate 4096 (Json.num 0)))]) "event_params") = true
    ∧ (validatePayload (Json.obj [("session_id", Json.str "abc"),
        ("event_params", Json.arr (List.replicate 4096 (Json.num 0)))])).fst
        = some "session_id must be number or empty"
    ∧ (validatePayload (Json.obj [("session_id", Json.str "abc"),
        ("event_params", Json.arr (List.replicate 4096 (Json.num 0)))])).fst
        ≠ some "event_params too large" := by
  have hfst : (validatePayload (Json.obj [("session_id", Json.str "abc"),
      ("event_params", Json.arr (List.replicate 4096 (Json.num 0)))])).fst
      = some "session_id must be number or empty" := rfl
  refine ⟨by rw [stringify_big_len]; omega, rfl, hfst, by rw [hfst]; simp⟩

/-! ## C7 -/

/-- C7: the validator/sanitizer is idempotent: when validation succeeds,
running it again on the sanitized mapping succeeds and leaves the mapping
unchanged. -/
theorem validatePayload_idempotent (p : Json)
    (h : (validatePayload p).fst = none) :
    validatePayload ((validatePayload p).snd) = (none, (validatePayload p).snd) := by
  obtain ⟨ht, hto, hs, he, hl, hsnd⟩ := validatePayload_success_conds p h
  rw [hsnd]
  cases p with
  | null => simp [jsTruthy] at ht
  | bool b => simp [typeofIsObject] at hto
  | num n => simp [typeofIsObject] at hto
  | str s => simp [typeofIsObject] at hto
  | arr l => rfl
  | obj l =>
    show validatePayload (Json.obj (l.filter (fun kv => allowedTop.contains kv.1)))
      = (none, Json.obj (l.filter (fun kv => allowedTop.contains kv.1)))
    unfold validatePayload
    rw [sessionIdBad_filter, eventParamsNotObj_filter, eventParamsTooLarge_filter, hs, he, hl]
    simp [jsTruthy, typeofIsObject, prune, List.filter_filter]

/-- Witness for C7 on a payload with one allow-listed and one pruned key. -/
theorem validatePayload_idempotent_witness :
    (validatePayload (Json.obj [("client_id", Json.str "x"), ("junk", Json.num 1)])).fst = none
    ∧ validatePayload
        ((validatePayload (Json.obj [("client_id", Json.str "x"), ("junk", Json.num 1)])).snd)
      = (none, (validatePayload
          (Json.obj [("client_id", Json.str "x"), ("junk", Json.num 1)])).snd) :=
  ⟨rfl, validatePayload_idempotent (Json.obj [("client_id", Json.str "x"), ("junk", Json.num 1)]) rfl⟩

/-! ## C8 -/

/-- C8: after a successful validation every remaining top-level key of the
sanitized mapping belongs to the allow-list. -/
theorem validatePayload_success_keys_allowed (p : Json)
    (h : (validatePayload p).fst = none) :
    ∀ k ∈ jsKeys (validatePayload p).snd, k ∈ allowedTop := by
  obtain ⟨ht, hto, _, _, _, hsnd⟩ := validatePayload_success_conds p h
  rw [hsnd]
  cases p with
  | null => simp [jsTruthy] at ht
  | bool b => simp [typeofIsObject] at hto
  | num n => simp [typeofIsObject] at hto
  | str s => simp [typeofIsObject] at hto
  | arr l =>
    intro k hk
    simp [prune, jsKeys] at hk
  | obj l =>
    intro k hk
    have hk2 : k ∈ (l.filter (fun kv => allowedTop.contains kv.1)).map Prod.fst := hk
    obtain ⟨kv, hkvmem, hfst⟩ := List.mem_map.mp hk2
    have hcont := (List.mem_filter.mp hkvmem).2
    rw [← hfst]
    simpa using hcont

/-- Witness for C8 on a payload with one allow-listed and one pruned key. -/
theorem validatePayload_success_keys_allowed_witness :
    (validatePayload (Json.obj [("client_id", Json.str "x"), ("junk", Json.num 1)])).fst = none
    ∧ ∀ k ∈ jsKeys (validatePayload
        (Json.obj [("client_id", Json.str "x"), ("junk", Json.num 1)])).snd, k ∈ allowedTop :=
  ⟨rfl, validatePayload_success_keys_allowed
    (Json.obj [("client_id", Json.str "x"), ("junk", Json.num 1)]) rfl⟩
